import Mathlib

/-!
Verification of the SMART attribute decoding core of the `smart` library.

The development shallowly embeds the Go sources:
* `drivedb/drivedb.go` — drive database types, `LookupDrive`, `OpenDriveDb`;
* `smart.go` — `smartAttr`, `smartPage`, `decodeVendorBytes`, `printSMART`.

Go maps are reference values: copying a `driveModel` struct copies the map
*pointer*, reads from a `nil` map yield the zero value, and writes to a `nil`
map panic.  To model this faithfully, preset maps live in an explicit `Heap`
(a list of association lists) and a model's `presets` field is an optional
reference into that heap (`none` models the `nil` map).  Functions that can
panic return `Option` (`none` = panic).  Machine integers are modelled as
`Nat` with explicit `% 2 ^ 64` where the Go code uses `uint64` arithmetic.
-/

/-- SMART attribute conversion rule (`AttrConv` in `drivedb.go`). -/
structure AttrConv where
  conv : String
  name : String
  deriving DecidableEq

/-- Contents of one Go `map[string]AttrConv`, as an association list.
Key order stands in for Go's (irrelevant here) iteration order. -/
abbrev PresetMap := List (String × AttrConv)

/-- A drive model entry (`DriveModel` in `drivedb.go`).  `presets` is a
reference into the heap of preset maps (`none` = Go `nil` map).  The compiled
regular expression is abstracted as its matching function on the raw
model-number bytes. -/
structure DriveModel where
  family : String
  modelRegex : String
  firmwareRegex : String
  warningMsg : String
  presets : Option Nat
  compiledRegexp : List Nat → Bool

/-- The drive database (`DriveDb` in `drivedb.go`). -/
structure DriveDb where
  drives : List DriveModel

/-- The heap of preset maps; a reference `i` denotes `maps[i]`. -/
structure Heap where
  maps : List PresetMap
  deriving DecidableEq

/-- Go map read (`v := m[k]` / `v, ok := m[k]`). -/
def assocFind (m : PresetMap) (k : String) : Option AttrConv :=
  match m with
  | [] => none
  | (k', v) :: rest => if k' = k then some v else assocFind rest k

/-- Go map write (`m[k] = v`) on the map's contents: replaces the binding in
place if the key exists, appends it otherwise. -/
def assocSet (m : PresetMap) (k : String) (v : AttrConv) : PresetMap :=
  match m with
  | [] => [(k, v)]
  | (k', v') :: rest => if k' = k then (k, v) :: rest else (k', v') :: assocSet rest k v

/-- Dereference a preset-map reference; the `nil` map reads as empty. -/
def heapMap (h : Heap) (r : Option Nat) : PresetMap :=
  match r with
  | none => []
  | some i => h.maps.getD i []

/-- `model.Presets[id]` — reading through a reference; reading the `nil` map
yields "not present", as in Go. -/
def mapRead (h : Heap) (r : Option Nat) (k : String) : Option AttrConv :=
  assocFind (heapMap h r) k

/-- `model.Presets[id] = v` — writing through a reference.  Writing to the
`nil` map panics in Go, modelled by `none`. -/
def mapWrite (h : Heap) (r : Option Nat) (k : String) (v : AttrConv) : Option Heap :=
  match r with
  | none => none
  | some i => some ⟨h.maps.set i (assocSet (h.maps.getD i []) k v)⟩

/-- `strings.HasPrefix`, on the underlying character lists. -/
def hasPrefixStr (p s : String) : Bool :=
  p.data.isPrefixOf s.data

/-- The zero value of `driveModel` (`var model driveModel`): empty strings,
`nil` preset map, and a regexp that is never consulted. -/
def zeroModel : DriveModel :=
  ⟨"", "", "", "", none, fun _ => false⟩

/-- The preset-merging loop of `LookupDrive` (`for id, p := range d.Presets`):
for each entry preset, if the id already exists in the result map and the
entry-side name is empty, keep the existing name; then write the binding into
the result map.  Writing through a `nil` reference panics (`none`). -/
def mergeLoop (dst : Option Nat) : Heap → PresetMap → Option Heap
  | h, [] => some h
  | h, (id, p) :: rest =>
    let name :=
      match mapRead h dst id with
      | some existing => if p.name = "" then existing.name else p.name
      | none => p.name
    match mapWrite h dst id ⟨p.conv, name⟩ with
    | none => none
    | some h1 => mergeLoop dst h1 rest

/-- The body of `LookupDrive`'s match branch: copy the matched entry's scalar
fields onto the current model (keeping the model's preset-map reference) and
merge the matched entry's presets into that map. -/
def matchStep (h : Heap) (model d : DriveModel) : Option (DriveModel × Heap) :=
  let model' : DriveModel :=
    { model with
        family := d.family
        modelRegex := d.modelRegex
        firmwareRegex := d.firmwareRegex
        warningMsg := d.warningMsg
        compiledRegexp := d.compiledRegexp }
  match mergeLoop model'.presets h (heapMap h d.presets) with
  | none => none
  | some h1 => some (model', h1)

/-- The iteration of `LookupDrive` over `db.Drives`: skip `$Id` placeholder
entries, remember a `DEFAULT` entry as the running model (struct copy shares
the preset-map reference), stop at the first entry whose compiled regexp
matches `ident`. -/
def lookupLoop (h : Heap) (ident : List Nat) (model : DriveModel) :
    List DriveModel → Option (DriveModel × Heap)
  | [] => some (model, h)
  | d :: rest =>
    if hasPrefixStr "$Id" d.family then lookupLoop h ident model rest
    else if d.family = "DEFAULT" then lookupLoop h ident d rest
    else if d.compiledRegexp ident then matchStep h model d
    else lookupLoop h ident model rest

/-- `LookupDrive` from `drivedb.go` (identical to `lookupDrive` in
`smart.go`), with the heap of preset maps passed and returned explicitly. -/
def LookupDrive (h : Heap) (db : DriveDb) (ident : List Nat) :
    Option (DriveModel × Heap) :=
  lookupLoop h ident zeroModel db.drives

/-- An entry that does not terminate the lookup iteration: a placeholder, a
`DEFAULT` entry, or a non-matching entry. -/
def notStopping (ident : List Nat) (d : DriveModel) : Prop :=
  hasPrefixStr "$Id" d.family = true ∨ d.family = "DEFAULT" ∨ d.compiledRegexp ident = false

/-- The baseline model accumulated over a run of non-stopping entries: the
last non-placeholder `DEFAULT` entry, if any. -/
def baselineOf (m : DriveModel) : List DriveModel → DriveModel
  | [] => m
  | d :: rest =>
    if hasPrefixStr "$Id" d.family then baselineOf m rest
    else if d.family = "DEFAULT" then baselineOf d rest
    else baselineOf m rest

/-- The merge of one preset id as the specification describes it: a baseline
preset id not present in the matched entry is copied in; for an id present in
both, the matched entry's conversion rule is kept and an empty matched-side
name is replaced by the baseline's name. -/
def mergeSpec (b p : Option AttrConv) : Option AttrConv :=
  match p, b with
  | some pc, some bc => some ⟨pc.conv, if pc.name = "" then bc.name else pc.name⟩
  | some pc, none => some pc
  | none, b => b

/-- One SMART attribute record (`smartAttr` in `smart.go`, 12 bytes). -/
structure SmartAttr where
  id : Nat
  flags : Nat
  value : Nat
  worst : Nat
  vendorBytes : List Nat
  reserved : Nat
  deriving DecidableEq

/-- A page of 30 SMART attributes (`smartPage` in `smart.go`). -/
structure SmartPage where
  version : Nat
  attrs : List SmartAttr
  deriving DecidableEq

/-- Byte selection of `decodeVendorBytes`: characters `'0'`–`'5'` select the
vendor bytes, `'r'` the reserved byte, `'v'` the normalised value, `'w'` the
worst value; anything else selects `0`. -/
def pickByte (sa : SmartAttr) (c : Char) : Nat :=
  match c with
  | '0' => sa.vendorBytes.getD 0 0
  | '1' => sa.vendorBytes.getD 1 0
  | '2' => sa.vendorBytes.getD 2 0
  | '3' => sa.vendorBytes.getD 3 0
  | '4' => sa.vendorBytes.getD 4 0
  | '5' => sa.vendorBytes.getD 5 0
  | 'r' => sa.reserved
  | 'v' => sa.value
  | 'w' => sa.worst
  | _ => 0

/-- One accumulation step of `decodeVendorBytes` (`r <<= 8; r |= uint64(b)`),
with the `uint64` wrap-around made explicit. -/
def accumByte (r b : Nat) : Nat :=
  ((r <<< 8) % 18446744073709551616) ||| b

/-- `decodeVendorBytes` from `smart.go`: select a byte-order template from the
conversion rule, then fold it left to right, shifting the accumulator by 8
bits and OR-ing in the selected byte. -/
def decodeVendorBytes (sa : SmartAttr) (conv : String) : Nat :=
  let byteOrder : String :=
    if conv = "raw64" ∨ conv = "hex64" then "543210wv"
    else if conv = "raw56" ∨ conv = "hex56" ∨ conv = "raw24/raw32" ∨ conv = "msec24hour32" then
      "r543210"
    else "543210"
  byteOrder.data.foldl (fun r c => accumByte r (pickByte sa c)) 0

/-- The data of one attribute line emitted by `printSMART` (the fields fed to
the `fmt.Printf` call, before textual layout). -/
structure SmartLine where
  id : Nat
  name : String
  flags : Nat
  value : Nat
  worst : Nat
  reserved : Nat
  attrType : String
  attrUpdated : String
  rawValue : Nat
  conv : String
  deriving DecidableEq

/-- The per-record computation of `printSMART`: look the preset up by the
decimal string id (`strconv.Itoa`); when present, decode the vendor bytes with
its conversion rule, otherwise the raw value keeps its zero initialisation and
the zero-value `attrConv` supplies empty name and conversion strings. -/
def attrLine (h : Heap) (drive : DriveModel) (a : SmartAttr) : SmartLine :=
  let found := mapRead h drive.presets (toString a.id)
  let conv : AttrConv :=
    match found with
    | some c => c
    | none => ⟨"", ""⟩
  let rawValue : Nat :=
    match found with
    | some c => decodeVendorBytes a c.conv
    | none => 0
  { id := a.id
    name := conv.name
    flags := a.flags
    value := a.value
    worst := a.worst
    reserved := a.reserved
    attrType := if a.flags &&& 1 > 0 then "Pre-fail" else "Old_age"
    attrUpdated := if a.flags &&& 2 > 0 then "Always" else "Offline"
    rawValue := rawValue
    conv := conv.conv }

/-- The attribute loop of `printSMART`: one line per record, stopping at the
first record with `Id == 0`. -/
def renderAttrs (h : Heap) (drive : DriveModel) : List SmartAttr → List SmartLine
  | [] => []
  | a :: rest =>
    if a.id = 0 then []
    else attrLine h drive a :: renderAttrs h drive rest

/-- `printSMART` from `smart.go`, as the list of attribute lines it emits
(the two header lines are constant text and are not modelled). -/
def printSMART (h : Heap) (page : SmartPage) (drive : DriveModel) : List SmartLine :=
  renderAttrs h drive page.attrs

/-- `OpenDriveDb` from `drivedb.go`.  The filesystem and YAML decoder are
abstracted as parameters: `opened` is whether `os.Open` succeeded, `decoded`
and `decodeErr` are the state of `db` and the error after `dec.Decode(&db)`,
and `compile` stands for `regexp.Compile` (whose error is discarded).  On an
open failure the function returns the zero-value database and a nil error. -/
def OpenDriveDb (opened : Bool) (decoded : DriveDb) (decodeErr : Option String)
    (compile : String → List Nat → Bool) : DriveDb × Option String :=
  if opened = false then (⟨[]⟩, none)
  else
    match decodeErr with
    | some e => (decoded, some e)
    | none =>
      (⟨decoded.drives.map fun d => { d with compiledRegexp := compile d.modelRegex }⟩, none)

/-- Two-digit zero padding for minute/second fields. -/
def pad2 (n : Nat) : String :=
  if n < 10 then "0" ++ toString n else toString n

/-- Three-digit zero padding for millisecond fields. -/
def pad3 (n : Nat) : String :=
  if n < 10 then "00" ++ toString n
  else if n < 100 then "0" ++ toString n
  else toString n

/-- Lower-case hexadecimal digit. -/
def hexChar (n : Nat) : Char :=
  if n < 10 then Char.ofNat (48 + n) else Char.ofNat (87 + n)

/-- `v` rendered as exactly `width` hexadecimal digits, most significant
first. -/
def hexPad (width : Nat) (v : Nat) : String :=
  String.mk ((List.range width).map fun i => hexChar ((v >>> (4 * (width - 1 - i))) % 16))

/-- A byte reinterpreted as a signed 8-bit integer. -/
def signed8 (b : Nat) : Int :=
  if b % 256 < 128 then ((b % 256 : Nat) : Int) else ((b % 256 : Nat) : Int) - 256

/-- Modelled from the spec: `checkTempWord` of the Raw-Value Formatter, which
is not present in the sources.  Classifies a 16-bit word as a plausible
temperature word: nonzero for `word <= 0x7f`, for a small negative signed
byte (`word <= 0xff`), or for a small negative signed word
(`word >= 0xff80`); zero otherwise. -/
def checkTempWord (w : Nat) : Nat :=
  if w ≤ 0x7f then 0x11
  else if w ≤ 0xff then 0x01
  else if w ≥ 0xff80 then 0x10
  else 0

/-- Modelled from the spec: `checkTempRange` of the Raw-Value Formatter, which
is not present in the sources.  Orders the two signed bytes low/high and
accepts them as a min/max bracket only if both lie within [-60, 120], the
bracket contains `t`, and the bracket is not the degenerate low = -1 with
high <= 0. -/
def checkTempRange (t a b : Int) : Option (Int × Int) :=
  let lo := if a ≤ b then a else b
  let hi := if a ≤ b then b else a
  if -60 ≤ lo ∧ lo ≤ t ∧ t ≤ hi ∧ hi ≤ 120 ∧ ¬(lo = -1 ∧ hi ≤ 0) then some (lo, hi)
  else none

/-- Modelled from the spec: the `tempminmax` branch of the Raw-Value
Formatter, which is not present in the sources.  Follows the spec's outline:
treat `raw[0]` as the signed current temperature, classify `word0`, then try
the packing hypotheses in order (`word2 == 0`: trivial, then brackets from
`raw[1..3]`; `word2 != 0`: brackets from `raw[2..4]`, the second supplying a
reading count); fall back to dumping the raw bytes in reverse order. -/
def formatTempMinMax (v : Nat) : String :=
  let raw0 := v % 256
  let raw1 := (v >>> 8) % 256
  let raw2 := (v >>> 16) % 256
  let raw3 := (v >>> 24) % 256
  let raw4 := (v >>> 32) % 256
  let raw5 := (v >>> 40) % 256
  let word0 := v % 65536
  let word1 := (v >>> 16) % 65536
  let word2 := (v >>> 32) % 65536
  let t := signed8 raw0
  let ctw0 := checkTempWord word0
  let fallback := s!"{raw5} {raw4} {raw3} {raw2} {raw1} {raw0}"
  if word2 = 0 then
    if word1 = 0 ∧ ctw0 ≠ 0 then s!"{t}"
    else
      match (if ctw0 ≠ 0 then checkTempRange t (signed8 raw2) (signed8 raw3) else none) with
      | some (lo, hi) => s!"{t} (Min/Max {lo}/{hi})"
      | none =>
        match (if raw3 = 0 then checkTempRange t (signed8 raw1) (signed8 raw2) else none) with
        | some (lo, hi) => s!"{t} (Min/Max {lo}/{hi})"
        | none => fallback
  else
    match
      (if ctw0 ≠ 0 ∧ checkTempWord word1 ≠ 0 ∧ checkTempWord word2 ≠ 0 then
        checkTempRange t (signed8 raw2) (signed8 raw4)
      else none) with
    | some (lo, hi) => s!"{t} (Min/Max {lo}/{hi})"
    | none =>
      match
        (if ctw0 ≠ 0 ∧ word2 < 0x7fff then
          Option.filter (fun p => 40 ≤ p.2) (checkTempRange t (signed8 raw2) (signed8 raw3))
        else none) with
      | some (lo, hi) => s!"{t} (Min/Max {lo}/{hi} #{word2})"
      | none => fallback

/-- Modelled from the spec: the Raw-Value Formatter (`format(value, conv)`),
which is not present in the sources.  A total function switching on the
conversion-rule string per the spec's table; any unrecognized rule renders as
the literal string `"?"`. -/
def formatRawValue (v : Nat) (conv : String) : String :=
  if conv = "raw8" then
    let b5 := (v >>> 40) % 256
    let b4 := (v >>> 32) % 256
    let b3 := (v >>> 24) % 256
    let b2 := (v >>> 16) % 256
    let b1 := (v >>> 8) % 256
    let b0 := v % 256
    s!"{b5} {b4} {b3} {b2} {b1} {b0}"
  else if conv = "raw16" then
    let w2 := (v >>> 32) % 65536
    let w1 := (v >>> 16) % 65536
    let w0 := v % 65536
    s!"{w2} {w1} {w0}"
  else if conv = "raw48" ∨ conv = "raw56" ∨ conv = "raw64" then toString v
  else if conv = "hex48" then "0x" ++ hexPad 12 v
  else if conv = "hex56" then "0x" ++ hexPad 14 v
  else if conv = "hex64" then "0x" ++ hexPad 16 v
  else if conv = "raw16(raw16)" then
    let w0 := v % 65536
    let w1 := (v >>> 16) % 65536
    let w2 := (v >>> 32) % 65536
    if w1 ≠ 0 ∨ w2 ≠ 0 then s!"{w0} ({w2} {w1})" else toString w0
  else if conv = "raw16(avg16)" then
    let w0 := v % 65536
    let w1 := (v >>> 16) % 65536
    if w1 ≠ 0 then s!"{w0} (Average {w1})" else toString w0
  else if conv = "raw24(raw8)" then
    let lo := v % 16777216
    let b3 := (v >>> 24) % 256
    let b4 := (v >>> 32) % 256
    let b5 := (v >>> 40) % 256
    if b3 ≠ 0 ∨ b4 ≠ 0 ∨ b5 ≠ 0 then s!"{lo} ({b5} {b4} {b3})" else toString lo
  else if conv = "raw24/raw24" then
    let hi := v >>> 24
    let lo := v % 16777216
    s!"{hi}/{lo}"
  else if conv = "raw24/raw32" then
    let hi := v >>> 32
    let lo := v % 4294967296
    s!"{hi}/{lo}"
  else if conv = "min2hour" then
    let minutes := v % 65536 + ((v >>> 16) % 65536) * 65536
    let hrs := minutes / 60
    let mm := pad2 (minutes % 60)
    let w2 := (v >>> 32) % 65536
    if w2 ≠ 0 then s!"{hrs}h+{mm}m ({w2})" else s!"{hrs}h+{mm}m"
  else if conv = "sec2hour" then
    let hrs := v / 3600
    let mm := pad2 (v % 3600 / 60)
    let ss := pad2 (v % 60)
    s!"{hrs}h+{mm}m+{ss}s"
  else if conv = "halfmin2hour" then
    let hrs := v / 120
    let mm := pad2 (v % 120 / 2)
    s!"{hrs}h+{mm}m"
  else if conv = "msec24hour32" then
    let hrs := v % 4294967296
    let ms := v >>> 32
    let sec := ms / 1000
    let mm := pad2 (sec / 60)
    let ss := pad2 (sec % 60)
    let rest := pad3 (ms % 1000)
    s!"{hrs}h+{mm}m+{ss}.{rest}s"
  else if conv = "tempminmax" then formatTempMinMax v
  else if conv = "temp10x" then
    let w0 := v % 65536
    let d := w0 / 10
    let r := w0 % 10
    s!"{d}.{r}"
  else "?"

/-- The `DEFAULT` entry of the concrete database of the specification's
resolver example (presets live at heap reference 0). -/
def defaultEntry : DriveModel :=
  ⟨"DEFAULT", "-", "-", "Default settings", some 0, fun _ => false⟩

/-- Compiled form of the model regex `"^FOO"`: matches exactly the byte
sequences starting with `"FOO"`. -/
def fooMatcher : List Nat → Bool :=
  fun s => [70, 79, 79].isPrefixOf s

/-- The `family: "Foo", model_regex: "^FOO"` entry of the specification's
resolver example (presets live at heap reference 1). -/
def fooEntry : DriveModel :=
  ⟨"Foo", "^FOO", "-", "", some 1, fooMatcher⟩

/-- Heap for the resolver example: the `DEFAULT` presets map id `"9"` to
`raw24(raw8)`/`Power_On_Hours`, the `Foo` presets map id `"5"` to
`raw16(raw16)`/`Foo_Attr`. -/
def fooHeap : Heap :=
  ⟨[[("9", ⟨"raw24(raw8)", "Power_On_Hours"⟩)], [("5", ⟨"raw16(raw16)", "Foo_Attr"⟩)]]⟩

/-- The two-entry database of the specification's resolver example. -/
def fooDb : DriveDb :=
  ⟨[defaultEntry, fooEntry]⟩

/-- The model-number bytes `"FOO-1000"`. -/
def fooIdent : List Nat :=
  [70, 79, 79, 45, 49, 48, 48, 48]

/-- A database containing no `DEFAULT` entry, whose single entry carries a
nonempty preset map (heap reference 0). -/
def fooOnlyDb : DriveDb :=
  ⟨[⟨"Foo", "^FOO", "-", "", some 0, fooMatcher⟩]⟩

/-- Heap for `fooOnlyDb`. -/
def fooOnlyHeap : Heap :=
  ⟨[[("5", ⟨"raw16(raw16)", "Foo_Attr"⟩)]]⟩

/-- A sample attribute record with distinct byte values. -/
def sampleAttr : SmartAttr :=
  ⟨9, 3, 100, 98, [1, 2, 3, 4, 5, 6], 7⟩

/-- An attribute record whose id `7` has no preset in an empty model; its
default-template decode would be `1`. -/
def missAttr : SmartAttr :=
  ⟨7, 0, 100, 100, [1, 0, 0, 0, 0, 0], 0⟩

/-- A page holding only `missAttr`. -/
def missPage : SmartPage :=
  ⟨16, [missAttr]⟩

theorem orStep (r b : Nat) (hr : r < 72057594037927936) (hb : b < 256) :
    accumByte r b = r * 256 + b := by
  unfold accumByte
  rw [Nat.shiftLeft_eq]
  have h8 : (2 : Nat) ^ 8 = 256 := by norm_num
  rw [h8]
  rw [Nat.mod_eq_of_lt (by omega)]
  have h := Nat.mul_add_lt_is_or (i := 8) (b := b) (by omega) r
  rw [h8] at h
  rw [Nat.mul_comm r 256]
  exact h.symm

theorem chain6 (b5 b4 b3 b2 b1 b0 : Nat)
    (h5 : b5 < 256) (h4 : b4 < 256) (h3 : b3 < 256)
    (h2 : b2 < 256) (h1 : b1 < 256) (h0 : b0 < 256) :
    accumByte (accumByte (accumByte (accumByte (accumByte (accumByte 0 b5) b4) b3) b2) b1) b0
      = b5 * 2 ^ 40 + b4 * 2 ^ 32 + b3 * 2 ^ 24 + b2 * 2 ^ 16 + b1 * 2 ^ 8 + b0 := by
  rw [orStep 0 b5 (by omega) h5]
  rw [orStep _ b4 (by omega) h4]
  rw [orStep _ b3 (by omega) h3]
  rw [orStep _ b2 (by omega) h2]
  rw [orStep _ b1 (by omega) h1]
  rw [orStep _ b0 (by omega) h0]
  norm_num
  ring

theorem chain7 (rb b5 b4 b3 b2 b1 b0 : Nat)
    (hrb : rb < 256) (h5 : b5 < 256) (h4 : b4 < 256) (h3 : b3 < 256)
    (h2 : b2 < 256) (h1 : b1 < 256) (h0 : b0 < 256) :
    accumByte (accumByte (accumByte (accumByte (accumByte (accumByte (accumByte 0 rb) b5) b4) b3) b2) b1) b0
      = rb * 2 ^ 48 + b5 * 2 ^ 40 + b4 * 2 ^ 32 + b3 * 2 ^ 24 + b2 * 2 ^ 16 + b1 * 2 ^ 8 + b0 := by
  rw [orStep 0 rb (by omega) hrb]
  rw [orStep _ b5 (by omega) h5]
  rw [orStep _ b4 (by omega) h4]
  rw [orStep _ b3 (by omega) h3]
  rw [orStep _ b2 (by omega) h2]
  rw [orStep _ b1 (by omega) h1]
  rw [orStep _ b0 (by omega) h0]
  norm_num
  ring

theorem chain8 (b5 b4 b3 b2 b1 b0 w v : Nat)
    (h5 : b5 < 256) (h4 : b4 < 256) (h3 : b3 < 256) (h2 : b2 < 256)
    (h1 : b1 < 256) (h0 : b0 < 256) (hw : w < 256) (hv : v < 256) :
    accumByte (accumByte (accumByte (accumByte (accumByte (accumByte (accumByte (accumByte 0 b5) b4) b3) b2) b1) b0) w) v
      = b5 * 2 ^ 56 + b4 * 2 ^ 48 + b3 * 2 ^ 40 + b2 * 2 ^ 32 + b1 * 2 ^ 24 + b0 * 2 ^ 16 + w * 2 ^ 8 + v := by
  rw [orStep 0 b5 (by omega) h5]
  rw [orStep _ b4 (by omega) h4]
  rw [orStep _ b3 (by omega) h3]
  rw [orStep _ b2 (by omega) h2]
  rw [orStep _ b1 (by omega) h1]
  rw [orStep _ b0 (by omega) h0]
  rw [orStep _ w (by omega) hw]
  rw [orStep _ v (by omega) hv]
  norm_num
  ring

theorem decode_template_wv (sa : SmartAttr) (c : String) (h : c = "raw64" ∨ c = "hex64") :
    decodeVendorBytes sa c
      = accumByte (accumByte (accumByte (accumByte (accumByte (accumByte (accumByte (accumByte 0
          (pickByte sa '5')) (pickByte sa '4')) (pickByte sa '3')) (pickByte sa '2'))
          (pickByte sa '1')) (pickByte sa '0')) (pickByte sa 'w')) (pickByte sa 'v') := by
  unfold decodeVendorBytes
  rw [if_pos h]
  rfl

theorem decode_template_r (sa : SmartAttr) (c : String)
    (hne : ¬(c = "raw64" ∨ c = "hex64"))
    (h : c = "raw56" ∨ c = "hex56" ∨ c = "raw24/raw32" ∨ c = "msec24hour32") :
    decodeVendorBytes sa c
      = accumByte (accumByte (accumByte (accumByte (accumByte (accumByte (accumByte 0
          (pickByte sa 'r')) (pickByte sa '5')) (pickByte sa '4')) (pickByte sa '3'))
          (pickByte sa '2')) (pickByte sa '1')) (pickByte sa '0') := by
  unfold decodeVendorBytes
  rw [if_neg hne, if_pos h]
  rfl

theorem decode_template_plain (sa : SmartAttr) (c : String)
    (hne : ¬(c = "raw64" ∨ c = "hex64"))
    (hne2 : ¬(c = "raw56" ∨ c = "hex56" ∨ c = "raw24/raw32" ∨ c = "msec24hour32")) :
    decodeVendorBytes sa c
      = accumByte (accumByte (accumByte (accumByte (accumByte (accumByte 0
          (pickByte sa '5')) (pickByte sa '4')) (pickByte sa '3')) (pickByte sa '2'))
          (pickByte sa '1')) (pickByte sa '0') := by
  unfold decodeVendorBytes
  rw [if_neg hne, if_neg hne2]
  rfl

theorem decode_wv_eq (sa : SmartAttr) (c : String) (b0 b1 b2 b3 b4 b5 : Nat)
    (hc : c = "raw64" ∨ c = "hex64")
    (hv : sa.vendorBytes = [b0, b1, b2, b3, b4, b5])
    (h0 : b0 < 256) (h1 : b1 < 256) (h2 : b2 < 256) (h3 : b3 < 256)
    (h4 : b4 < 256) (h5 : b5 < 256) (hw : sa.worst < 256) (hval : sa.value < 256) :
    decodeVendorBytes sa c
      = b5 * 2 ^ 56 + b4 * 2 ^ 48 + b3 * 2 ^ 40 + b2 * 2 ^ 32 + b1 * 2 ^ 24 + b0 * 2 ^ 16
        + sa.worst * 2 ^ 8 + sa.value := by
  rw [decode_template_wv sa c hc]
  simp only [pickByte, hv, List.getD_cons_zero, List.getD_cons_succ]
  exact chain8 b5 b4 b3 b2 b1 b0 sa.worst sa.value h5 h4 h3 h2 h1 h0 hw hval

theorem decode_r_eq (sa : SmartAttr) (c : String) (b0 b1 b2 b3 b4 b5 : Nat)
    (hne : ¬(c = "raw64" ∨ c = "hex64"))
    (hc : c = "raw56" ∨ c = "hex56" ∨ c = "raw24/raw32" ∨ c = "msec24hour32")
    (hv : sa.vendorBytes = [b0, b1, b2, b3, b4, b5])
    (h0 : b0 < 256) (h1 : b1 < 256) (h2 : b2 < 256) (h3 : b3 < 256)
    (h4 : b4 < 256) (h5 : b5 < 256) (hres : sa.reserved < 256) :
    decodeVendorBytes sa c
      = sa.reserved * 2 ^ 48 + b5 * 2 ^ 40 + b4 * 2 ^ 32 + b3 * 2 ^ 24 + b2 * 2 ^ 16
        + b1 * 2 ^ 8 + b0 := by
  rw [decode_template_r sa c hne hc]
  simp only [pickByte, hv, List.getD_cons_zero, List.getD_cons_succ]
  exact chain7 sa.reserved b5 b4 b3 b2 b1 b0 hres h5 h4 h3 h2 h1 h0

theorem decode_plain_eq (sa : SmartAttr) (c : String) (b0 b1 b2 b3 b4 b5 : Nat)
    (hne : ¬(c = "raw64" ∨ c = "hex64"))
    (hne2 : ¬(c = "raw56" ∨ c = "hex56" ∨ c = "raw24/raw32" ∨ c = "msec24hour32"))
    (hv : sa.vendorBytes = [b0, b1, b2, b3, b4, b5])
    (h0 : b0 < 256) (h1 : b1 < 256) (h2 : b2 < 256) (h3 : b3 < 256)
    (h4 : b4 < 256) (h5 : b5 < 256) :
    decodeVendorBytes sa c
      = b5 * 2 ^ 40 + b4 * 2 ^ 32 + b3 * 2 ^ 24 + b2 * 2 ^ 16 + b1 * 2 ^ 8 + b0 := by
  rw [decode_template_plain sa c hne hne2]
  simp only [pickByte, hv, List.getD_cons_zero, List.getD_cons_succ]
  exact chain6 b5 b4 b3 b2 b1 b0 h5 h4 h3 h2 h1 h0

theorem assocFind_assocSet_self (m : PresetMap) (k : String) (v : AttrConv) :
    assocFind (assocSet m k v) k = some v := by
  induction m with
  | nil => simp [assocFind, assocSet]
  | cons kv rest ih =>
    obtain ⟨k', v'⟩ := kv
    by_cases h : k' = k
    · simp [assocSet, assocFind, h]
    · simp [assocSet, assocFind, h, ih]

theorem assocFind_assocSet_ne (m : PresetMap) (k k' : String) (v : AttrConv)
    (h : k ≠ k') : assocFind (assocSet m k v) k' = assocFind m k' := by
  induction m with
  | nil => simp [assocFind, assocSet, h]
  | cons kv rest ih =>
    obtain ⟨k0, v0⟩ := kv
    by_cases h0 : k0 = k
    · subst h0
      simp [assocSet, assocFind, h]
    · simp only [assocSet, if_neg h0, assocFind]
      by_cases h1 : k0 = k'
      · simp [h1]
      · simp [h1, ih]

theorem assocFind_eq_none (m : PresetMap) (k : String)
    (h : k ∉ m.map Prod.fst) : assocFind m k = none := by
  induction m with
  | nil => rfl
  | cons kv rest ih =>
    obtain ⟨k', v'⟩ := kv
    simp only [List.map_cons, List.mem_cons] at h
    push_neg at h
    simp only [assocFind, if_neg (Ne.symm h.1)]
    exact ih h.2

theorem mergeLoop_spec (rB : Nat) :
    ∀ (P : PresetMap) (h : Heap), rB < h.maps.length → (P.map Prod.fst).Nodup →
      ∃ h1, mergeLoop (some rB) h P = some h1
        ∧ (∀ id, assocFind (h1.maps.getD rB []) id
            = mergeSpec (assocFind (h.maps.getD rB []) id) (assocFind P id))
        ∧ h1.maps.length = h.maps.length
        ∧ (∀ j, j ≠ rB → h1.maps.getD j [] = h.maps.getD j []) := by
  intro P
  induction P with
  | nil =>
    intro h hlt _
    refine ⟨h, rfl, ?_, rfl, fun _ _ => rfl⟩
    intro id
    cases hb : assocFind (h.maps.getD rB []) id <;> simp [assocFind, mergeSpec, hb]
  | cons kv rest ih =>
    intro h hlt hnd
    obtain ⟨id, p⟩ := kv
    simp only [List.map_cons, List.nodup_cons] at hnd
    obtain ⟨hid, hnd'⟩ := hnd
    set B := h.maps.getD rB [] with hB
    set nm :=
      (match mapRead h (some rB) id with
       | some existing => if p.name = "" then existing.name else p.name
       | none => p.name) with hnm
    set h2 : Heap := ⟨h.maps.set rB (assocSet B id ⟨p.conv, nm⟩)⟩ with hh2
    have hstep : mergeLoop (some rB) h ((id, p) :: rest) = mergeLoop (some rB) h2 rest := by
      simp only [mergeLoop, mapWrite]
    have hlt2 : rB < h2.maps.length := by
      simp [hh2, List.length_set, hlt]
    obtain ⟨h1, he, hfind, hlen, hframe⟩ := ih h2 hlt2 hnd'
    have hget2 : h2.maps.getD rB [] = assocSet B id ⟨p.conv, nm⟩ := by
      simp [hh2, List.getD_eq_getElem?_getD, List.getElem?_set_self hlt]
    refine ⟨h1, hstep ▸ he, ?_, by simp [hlen, hh2], ?_⟩
    · intro id'
      rw [hfind id', hget2]
      by_cases hii : id' = id
      · subst hii
        rw [assocFind_assocSet_self, assocFind_eq_none rest id' hid]
        simp only [assocFind, if_pos rfl]
        simp only [mergeSpec]
        have : mapRead h (some rB) id' = assocFind B id' := by
          simp [mapRead, heapMap, hB]
        rw [hnm, this]
        cases hfb : assocFind B id' with
        | none => simp
        | some bc =>
          simp only []
          by_cases hpn : p.name = ""
          · simp [hpn]
          · simp [hpn]
      · rw [assocFind_assocSet_ne B id id' _ (Ne.symm hii)]
        have hrest : assocFind ((id, p) :: rest) id' = assocFind rest id' := by
          simp only [assocFind, if_neg (Ne.symm hii)]
        rw [hrest]
    · intro j hj
      rw [hframe j hj]
      simp [hh2, List.getD_eq_getElem?_getD, List.getElem?_set_ne (Ne.symm hj)]

theorem lookupLoop_append (ident : List Nat) :
    ∀ (pre : List DriveModel) (h : Heap) (m : DriveModel) (rest : List DriveModel),
      (∀ d ∈ pre, notStopping ident d) →
      lookupLoop h ident m (pre ++ rest) = lookupLoop h ident (baselineOf m pre) rest := by
  intro pre
  induction pre with
  | nil => intro h m rest _; rfl
  | cons d pre' ih =>
    intro h m rest hpre
    have hd : notStopping ident d := hpre d (List.mem_cons_self d pre')
    have hpre' : ∀ e ∈ pre', notStopping ident e := fun e he =>
      hpre e (List.mem_cons_of_mem d he)
    by_cases h1 : hasPrefixStr "$Id" d.family
    · simp only [List.cons_append, lookupLoop, if_pos h1, baselineOf]
      exact ih h m rest hpre'
    · by_cases h2 : d.family = "DEFAULT"
      · simp only [List.cons_append, lookupLoop, if_neg h1, if_pos h2, baselineOf]
        exact ih h d rest hpre'
      · have h3 : d.compiledRegexp ident = false := by
          rcases hd with hd | hd | hd
          · exact absurd hd (by simpa using h1)
          · exact absurd hd h2
          · exact hd
        simp only [List.cons_append, lookupLoop, if_neg h1, if_neg h2, h3, Bool.false_eq_true,
          if_neg (by simp : ¬False), baselineOf]
        exact ih h m rest hpre'

theorem renderAttrs_eq_takeWhile (h : Heap) (drive : DriveModel) :
    ∀ l : List SmartAttr,
      renderAttrs h drive l = (l.takeWhile fun a => a.id != 0).map (attrLine h drive) := by
  intro l
  induction l with
  | nil => rfl
  | cons a rest ih =>
    by_cases ha : a.id = 0
    · simp [renderAttrs, ha, List.takeWhile_cons]
    · simp [renderAttrs, ha, List.takeWhile_cons, ih]

theorem takeWhile_all {α : Type} (p : α → Bool) :
    ∀ l : List α, (∀ a ∈ l, p a = true) → l.takeWhile p = l := by
  intro l
  induction l with
  | nil => intro _; rfl
  | cons a rest ih =>
    intro hall
    rw [List.takeWhile_cons_of_pos (hall a (List.mem_cons_self a rest))]
    rw [ih fun b hb => hall b (List.mem_cons_of_mem a hb)]

/-- C4: the vendor-byte decoder selects template "543210wv" for raw64/hex64,
"r543210" for raw56/hex56/raw24\/raw32/msec24hour32, and "543210" otherwise,
and folds it with shift-8/OR steps; in particular raw64 yields
VendorBytes[5]..VendorBytes[0] most-significant-first followed by Worst and
Value. -/
theorem decodeVendorBytes_templates (sa : SmartAttr) (b0 b1 b2 b3 b4 b5 : Nat)
    (hv : sa.vendorBytes = [b0, b1, b2, b3, b4, b5])
    (h0 : b0 < 256) (h1 : b1 < 256) (h2 : b2 < 256) (h3 : b3 < 256)
    (h4 : b4 < 256) (h5 : b5 < 256)
    (hval : sa.value < 256) (hw : sa.worst < 256) (hres : sa.reserved < 256) :
    (decodeVendorBytes sa "raw64"
        = b5 * 2 ^ 56 + b4 * 2 ^ 48 + b3 * 2 ^ 40 + b2 * 2 ^ 32 + b1 * 2 ^ 24 + b0 * 2 ^ 16
          + sa.worst * 2 ^ 8 + sa.value)
    ∧ (decodeVendorBytes sa "hex64"
        = b5 * 2 ^ 56 + b4 * 2 ^ 48 + b3 * 2 ^ 40 + b2 * 2 ^ 32 + b1 * 2 ^ 24 + b0 * 2 ^ 16
          + sa.worst * 2 ^ 8 + sa.value)
    ∧ (decodeVendorBytes sa "raw56"
        = sa.reserved * 2 ^ 48 + b5 * 2 ^ 40 + b4 * 2 ^ 32 + b3 * 2 ^ 24 + b2 * 2 ^ 16
          + b1 * 2 ^ 8 + b0)
    ∧ (decodeVendorBytes sa "hex56"
        = sa.reserved * 2 ^ 48 + b5 * 2 ^ 40 + b4 * 2 ^ 32 + b3 * 2 ^ 24 + b2 * 2 ^ 16
          + b1 * 2 ^ 8 + b0)
    ∧ (decodeVendorBytes sa "raw24/raw32"
        = sa.reserved * 2 ^ 48 + b5 * 2 ^ 40 + b4 * 2 ^ 32 + b3 * 2 ^ 24 + b2 * 2 ^ 16
          + b1 * 2 ^ 8 + b0)
    ∧ (decodeVendorBytes sa "msec24hour32"
        = sa.reserved * 2 ^ 48 + b5 * 2 ^ 40 + b4 * 2 ^ 32 + b3 * 2 ^ 24 + b2 * 2 ^ 16
          + b1 * 2 ^ 8 + b0)
    ∧ (∀ conv : String,
        conv ∉ (["raw64", "hex64", "raw56", "hex56", "raw24/raw32", "msec24hour32"] : List String) →
        decodeVendorBytes sa conv
          = b5 * 2 ^ 40 + b4 * 2 ^ 32 + b3 * 2 ^ 24 + b2 * 2 ^ 16 + b1 * 2 ^ 8 + b0) := by
  refine ⟨?_, ?_, ?_, ?_, ?_, ?_, ?_⟩
  · exact decode_wv_eq sa _ b0 b1 b2 b3 b4 b5 (by decide) hv h0 h1 h2 h3 h4 h5 hw hval
  · exact decode_wv_eq sa _ b0 b1 b2 b3 b4 b5 (by decide) hv h0 h1 h2 h3 h4 h5 hw hval
  · exact decode_r_eq sa _ b0 b1 b2 b3 b4 b5 (by decide) (by decide) hv h0 h1 h2 h3 h4 h5 hres
  · exact decode_r_eq sa _ b0 b1 b2 b3 b4 b5 (by decide) (by decide) hv h0 h1 h2 h3 h4 h5 hres
  · exact decode_r_eq sa _ b0 b1 b2 b3 b4 b5 (by decide) (by decide) hv h0 h1 h2 h3 h4 h5 hres
  · exact decode_r_eq sa _ b0 b1 b2 b3 b4 b5 (by decide) (by decide) hv h0 h1 h2 h3 h4 h5 hres
  · intro conv hconv
    simp only [List.mem_cons, List.not_mem_nil, or_false, not_or] at hconv
    obtain ⟨e1, e2, e3, e4, e5, e6⟩ := hconv
    have hne : ¬(conv = "raw64" ∨ conv = "hex64") := by
      rintro (e | e) <;> simp_all
    have hne2 : ¬(conv = "raw56" ∨ conv = "hex56" ∨ conv = "raw24/raw32" ∨ conv = "msec24hour32") := by
      rintro (e | e | e | e) <;> simp_all
    exact decode_plain_eq sa conv b0 b1 b2 b3 b4 b5 hne hne2 hv h0 h1 h2 h3 h4 h5

/-- Witness for C4 at a concrete record. -/
theorem decodeVendorBytes_templates_witness :
    decodeVendorBytes sampleAttr "raw64"
        = 6 * 2 ^ 56 + 5 * 2 ^ 48 + 4 * 2 ^ 40 + 3 * 2 ^ 32 + 2 * 2 ^ 24 + 1 * 2 ^ 16
          + sampleAttr.worst * 2 ^ 8 + sampleAttr.value
    ∧ decodeVendorBytes sampleAttr "raw56"
        = sampleAttr.reserved * 2 ^ 48 + 6 * 2 ^ 40 + 5 * 2 ^ 32 + 4 * 2 ^ 24 + 3 * 2 ^ 16
          + 2 * 2 ^ 8 + 1 := by
  have h := decodeVendorBytes_templates sampleAttr 1 2 3 4 5 6 rfl (by decide) (by decide)
    (by decide) (by decide) (by decide) (by decide) (by decide) (by decide) (by decide)
  exact ⟨h.1, h.2.2.1⟩

/-- C5: for every conversion-rule string outside the recognized template
selectors, the decoder signals no error and returns the value assembled with
the default template "543210"; determinism is immediate since the decoder is
a pure function of the record and the string. -/
theorem decodeVendorBytes_default_template (sa : SmartAttr) (conv : String)
    (b0 b1 b2 b3 b4 b5 : Nat)
    (hv : sa.vendorBytes = [b0, b1, b2, b3, b4, b5])
    (h0 : b0 < 256) (h1 : b1 < 256) (h2 : b2 < 256) (h3 : b3 < 256)
    (h4 : b4 < 256) (h5 : b5 < 256)
    (hconv : conv ∉ (["raw64", "hex64", "raw56", "hex56", "raw24/raw32", "msec24hour32"] : List String)) :
    decodeVendorBytes sa conv
      = b5 * 2 ^ 40 + b4 * 2 ^ 32 + b3 * 2 ^ 24 + b2 * 2 ^ 16 + b1 * 2 ^ 8 + b0 := by
  simp only [List.mem_cons, List.not_mem_nil, or_false, not_or] at hconv
  obtain ⟨e1, e2, e3, e4, e5, e6⟩ := hconv
  have hne : ¬(conv = "raw64" ∨ conv = "hex64") := by
    rintro (e | e) <;> simp_all
  have hne2 : ¬(conv = "raw56" ∨ conv = "hex56" ∨ conv = "raw24/raw32" ∨ conv = "msec24hour32") := by
    rintro (e | e | e | e) <;> simp_all
  exact decode_plain_eq sa conv b0 b1 b2 b3 b4 b5 hne hne2 hv h0 h1 h2 h3 h4 h5

/-- Witness for C5 at a concrete record and unrecognized rule. -/
theorem decodeVendorBytes_default_template_witness :
    decodeVendorBytes sampleAttr "unknown-conv"
      = 6 * 2 ^ 40 + 5 * 2 ^ 32 + 4 * 2 ^ 24 + 3 * 2 ^ 16 + 2 * 2 ^ 8 + 1 :=
  decodeVendorBytes_default_template sampleAttr "unknown-conv" 1 2 3 4 5 6 rfl (by decide)
    (by decide) (by decide) (by decide) (by decide) (by decide) (by decide)

/-- C1: when the database holds a DEFAULT baseline and a later non-placeholder
entry whose compiled regex matches the model bytes, the resolver returns that
entry with the baseline's presets merged in: baseline ids absent from the
entry are copied in, and for ids present in both the entry's conversion rule
is kept while an empty entry-side name is filled from the baseline. -/
theorem LookupDrive_merges_default_presets
    (h : Heap) (db : DriveDb) (ident : List Nat) (pre post : List DriveModel)
    (E : DriveModel) (rB rE : Nat) (B P : PresetMap)
    (hdb : db.drives = pre ++ E :: post)
    (hpre : ∀ d ∈ pre, notStopping ident d)
    (hbase : (baselineOf zeroModel pre).presets = some rB)
    (hrB : rB < h.maps.length)
    (hB : h.maps.getD rB [] = B)
    (hE : E.presets = some rE)
    (hrBE : rB ≠ rE)
    (hP : h.maps.getD rE [] = P)
    (hnd : (P.map Prod.fst).Nodup)
    (hid : hasPrefixStr "$Id" E.family = false)
    (hdef : E.family ≠ "DEFAULT")
    (hm : E.compiledRegexp ident = true) :
    ∃ h1, LookupDrive h db ident
        = some ({ baselineOf zeroModel pre with
                    family := E.family
                    modelRegex := E.modelRegex
                    firmwareRegex := E.firmwareRegex
                    warningMsg := E.warningMsg
                    compiledRegexp := E.compiledRegexp }, h1)
      ∧ ∀ id, assocFind (h1.maps.getD rB []) id = mergeSpec (assocFind B id) (assocFind P id) := by
  obtain ⟨h1, he, hfind, _, _⟩ := mergeLoop_spec rB P h hrB hnd
  refine ⟨h1, ?_, ?_⟩
  · unfold LookupDrive
    rw [hdb, lookupLoop_append ident pre h zeroModel _ hpre]
    have e1 : lookupLoop h ident (baselineOf zeroModel pre) (E :: post)
        = matchStep h (baselineOf zeroModel pre) E := by
      simp [lookupLoop, hid, hdef, hm]
    rw [e1]
    unfold matchStep
    have e2 : ({ baselineOf zeroModel pre with
                  family := E.family
                  modelRegex := E.modelRegex
                  firmwareRegex := E.firmwareRegex
                  warningMsg := E.warningMsg
                  compiledRegexp := E.compiledRegexp } : DriveModel).presets
        = (baselineOf zeroModel pre).presets := rfl
    have e3 : heapMap h E.presets = P := by
      rw [hE]
      exact hP
    simp only [e2, hbase, e3, he]
  · intro id
    rw [hfind id, hB]

/-- Witness for C1: the specification's concrete example of a DEFAULT entry
presetting id "9" and a "^FOO" entry presetting id "5", looked up at
"FOO-1000". -/
theorem LookupDrive_merges_default_presets_witness :
    ∃ h1, LookupDrive fooHeap fooDb fooIdent
        = some ({ baselineOf zeroModel [defaultEntry] with
                    family := fooEntry.family
                    modelRegex := fooEntry.modelRegex
                    firmwareRegex := fooEntry.firmwareRegex
                    warningMsg := fooEntry.warningMsg
                    compiledRegexp := fooEntry.compiledRegexp }, h1)
      ∧ ∀ id, assocFind (h1.maps.getD 0 []) id
          = mergeSpec (assocFind [("9", ⟨"raw24(raw8)", "Power_On_Hours"⟩)] id)
              (assocFind [("5", ⟨"raw16(raw16)", "Foo_Attr"⟩)] id) :=
  LookupDrive_merges_default_presets fooHeap fooDb fooIdent [defaultEntry] [] fooEntry 0 1
    [("9", ⟨"raw24(raw8)", "Power_On_Hours"⟩)] [("5", ⟨"raw16(raw16)", "Foo_Attr"⟩)]
    rfl
    (by
      intro d hd
      rw [List.mem_singleton] at hd
      subst hd
      right; left; rfl)
    rfl (by decide) rfl rfl (by decide) rfl (by decide) rfl (by decide) rfl

/-- C7: the resolver iterates in file order, skips placeholder entries,
records DEFAULT entries as the baseline without stopping, stops at the first
matching remaining entry (the result does not depend on later entries), and
with no match returns the last-seen DEFAULT baseline unmerged (heap
untouched) or the zero-value model. -/
theorem LookupDrive_control_flow (h : Heap) (db : DriveDb) (ident : List Nat)
    (pre : List DriveModel) (hpre : ∀ d ∈ pre, notStopping ident d) :
    (db.drives = pre → LookupDrive h db ident = some (baselineOf zeroModel pre, h))
    ∧ (∀ E post, db.drives = pre ++ E :: post →
        hasPrefixStr "$Id" E.family = false → E.family ≠ "DEFAULT" →
        E.compiledRegexp ident = true →
        LookupDrive h db ident = matchStep h (baselineOf zeroModel pre) E) := by
  constructor
  · intro hdb
    have happ := lookupLoop_append ident pre h zeroModel [] hpre
    rw [List.append_nil] at happ
    unfold LookupDrive
    rw [hdb, happ]
    rfl
  · intro E post hdb hid hdef hm
    unfold LookupDrive
    rw [hdb, lookupLoop_append ident pre h zeroModel _ hpre]
    simp [lookupLoop, hid, hdef, hm]

/-- Witness for C7 at the concrete two-entry example database. -/
theorem LookupDrive_control_flow_witness :
    (fooDb.drives = [defaultEntry] →
      LookupDrive fooHeap fooDb fooIdent = some (baselineOf zeroModel [defaultEntry], fooHeap))
    ∧ (∀ E post, fooDb.drives = [defaultEntry] ++ E :: post →
        hasPrefixStr "$Id" E.family = false → E.family ≠ "DEFAULT" →
        E.compiledRegexp fooIdent = true →
        LookupDrive fooHeap fooDb fooIdent
          = matchStep fooHeap (baselineOf zeroModel [defaultEntry]) E) :=
  LookupDrive_control_flow fooHeap fooDb fooIdent [defaultEntry]
    (by
      intro d hd
      rw [List.mem_singleton] at hd
      subst hd
      right; left; rfl)

/-- C2 fails on the code: looking up "FOO-1000" in the example database
mutates the shared database, because the running model aliases the DEFAULT
entry's preset map and the merge writes the matched entry's presets into it.
This theorem evaluates the resolver at that input and shows the heap of
preset maps does not come back unchanged. -/
theorem LookupDrive_mutates_shared_database :
    (LookupDrive fooHeap fooDb fooIdent).map (fun r => r.2) ≠ some fooHeap := by
  decide

/-- C3 fails on the code: with no DEFAULT entry, the running model's preset
map is Go's nil map, and the merge loop's write into it panics as soon as the
matched entry carries a preset.  This theorem evaluates the resolver at such
an input; `none` is the modelled panic. -/
theorem LookupDrive_panics_without_default :
    LookupDrive fooOnlyHeap fooOnlyDb fooIdent = none := rfl

/-- C6 fails on the code: `printSMART` only decodes when the preset lookup
succeeds (`if ok`), so a populated record whose id is absent from the preset
map keeps the zero-initialised raw value instead of the default-template
decode of its vendor bytes.  At `missAttr` (vendor bytes 01 00 00 00 00 00,
default-template decode 1) with an empty model the emitted raw value is 0. -/
theorem printSMART_missing_preset_counterexample :
    ¬((printSMART ⟨[]⟩ missPage zeroModel).map (fun l => l.rawValue)
        = [decodeVendorBytes missAttr ""]) := by
  decide

/-- C6 amended: for a populated record whose decimal-string id is absent from
the preset map, the renderer still emits the line with the zero-value
conversion rule's empty name and conversion string, but skips decoding and
leaves the raw value at zero. -/
theorem printSMART_missing_preset_zero (h : Heap) (drive : DriveModel) (page : SmartPage)
    (a : SmartAttr) (rest : List SmartAttr)
    (hattrs : page.attrs = a :: rest) (hid : a.id ≠ 0)
    (hmiss : mapRead h drive.presets (toString a.id) = none) :
    ∃ tail, printSMART h page drive = attrLine h drive a :: tail
      ∧ (attrLine h drive a).rawValue = 0
      ∧ (attrLine h drive a).name = ""
      ∧ (attrLine h drive a).conv = "" := by
  refine ⟨renderAttrs h drive rest, ?_, ?_, ?_, ?_⟩
  · simp [printSMART, hattrs, renderAttrs, hid]
  · simp [attrLine, hmiss]
  · simp [attrLine, hmiss]
  · simp [attrLine, hmiss]

/-- Witness for the amended C6 at the concrete record and empty model. -/
theorem printSMART_missing_preset_zero_witness :
    ∃ tail, printSMART ⟨[]⟩ missPage zeroModel = attrLine ⟨[]⟩ zeroModel missAttr :: tail
      ∧ (attrLine ⟨[]⟩ zeroModel missAttr).rawValue = 0
      ∧ (attrLine ⟨[]⟩ zeroModel missAttr).name = ""
      ∧ (attrLine ⟨[]⟩ zeroModel missAttr).conv = "" :=
  printSMART_missing_preset_zero ⟨[]⟩ zeroModel missPage missAttr [] rfl (by decide) rfl

/-- C9: the renderer emits exactly one line per record before the first
record with Id == 0 — the lines are the per-record computations of that
prefix; in particular a table whose records all have nonzero ids renders one
line each, and a table starting with Id == 0 renders none. -/
theorem printSMART_line_count (h : Heap) (drive : DriveModel) (page : SmartPage) :
    printSMART h page drive = (page.attrs.takeWhile fun a => a.id != 0).map (attrLine h drive)
    ∧ ((∀ a ∈ page.attrs, a.id ≠ 0) → (printSMART h page drive).length = page.attrs.length)
    ∧ (∀ a rest, page.attrs = a :: rest → a.id = 0 → printSMART h page drive = []) := by
  refine ⟨renderAttrs_eq_takeWhile h drive page.attrs, ?_, ?_⟩
  · intro hall
    show (renderAttrs h drive page.attrs).length = page.attrs.length
    rw [renderAttrs_eq_takeWhile h drive page.attrs]
    rw [List.length_map]
    rw [takeWhile_all _ page.attrs (by intro a ha; simpa using hall a ha)]
  · intro a rest hattrs hid0
    simp [printSMART, hattrs, renderAttrs, hid0]

/-- Witness for C9: a 30-record table with nonzero ids yields 30 lines, and a
table starting with a zero id yields none. -/
theorem printSMART_line_count_witness :
    (printSMART ⟨[]⟩ ⟨16, List.replicate 30 sampleAttr⟩ zeroModel).length
        = (⟨16, List.replicate 30 sampleAttr⟩ : SmartPage).attrs.length
    ∧ printSMART ⟨[]⟩ ⟨16, [⟨0, 0, 0, 0, [0, 0, 0, 0, 0, 0], 0⟩]⟩ zeroModel = [] :=
  ⟨(printSMART_line_count ⟨[]⟩ zeroModel _).2.1 (by decide),
   (printSMART_line_count ⟨[]⟩ zeroModel _).2.2 _ [] rfl rfl⟩

/-- C8: for every value and every conversion-rule string outside the
formatter's table, `format` returns exactly the string "?" (the formatter is
a total function, so nothing is thrown and the rest of the report is
unaffected). -/
theorem formatRawValue_unknown (v : Nat) (conv : String)
    (h : conv ∉ (["raw8", "raw16", "raw48", "raw56", "raw64", "hex48", "hex56", "hex64",
        "raw16(raw16)", "raw16(avg16)", "raw24(raw8)", "raw24/raw24", "raw24/raw32",
        "min2hour", "sec2hour", "halfmin2hour", "msec24hour32", "tempminmax",
        "temp10x"] : List String)) :
    formatRawValue v conv = "?" := by
  simp only [List.mem_cons, List.not_mem_nil, or_false, not_or] at h
  obtain ⟨e1, e2, e3, e4, e5, e6, e7, e8, e9, e10, e11, e12, e13, e14, e15, e16, e17, e18, e19⟩ := h
  simp [formatRawValue, e1, e2, e3, e4, e5, e6, e7, e8, e9, e10, e11, e12, e13, e14, e15, e16,
    e17, e18, e19]

/-- Witness for C8 at a concrete unrecognized rule ("raw32" is not in the
table). -/
theorem formatRawValue_unknown_witness : formatRawValue 12345 "raw32" = "?" :=
  formatRawValue_unknown 12345 "raw32" (by decide)

/-- C10: when the database file cannot be opened, `OpenDriveDb` returns the
empty zero-value database together with a nil error — the caller observes
success with zero drive entries. -/
theorem OpenDriveDb_missing_file (decoded : DriveDb) (decodeErr : Option String)
    (compile : String → List Nat → Bool) :
    OpenDriveDb false decoded decodeErr compile = (⟨[]⟩, none) := rfl

/-- Witness for C10 at concrete decoder-state arguments. -/
theorem OpenDriveDb_missing_file_witness :
    OpenDriveDb false ⟨[]⟩ none (fun _ _ => false) = (⟨[]⟩, none) :=
  OpenDriveDb_missing_file ⟨[]⟩ none (fun _ _ => false)
